import Mathlib

/-!
Shallow embedding of the Azure Face Home Assistant integration
(`custom_components/azure_face`): the transport primitive `_make_request`,
the image validator `_validate_image`, the client operations built on them,
and the service handlers `async_recognize_face`, `async_train_group` and
`async_upload_person_image`.  Python dict payloads are modelled by a small
JSON value type; Python exceptions by explicit outcome types.
-/

namespace AzureFace

/-- JSON values as produced by Python `json.loads`.  Numbers are modelled as
integers (no claim exercises fractional payload numbers); objects are
association lists with the unique keys `json.loads` guarantees. -/
inductive Json where
  | null : Json
  | bool (b : Bool) : Json
  | num (n : Int) : Json
  | str (s : String) : Json
  | arr (xs : List Json) : Json
  | obj (kvs : List (String × Json)) : Json
deriving Repr

/-- A single-quote character, as Python repr uses for strings. -/
def pyQuote (s : String) : String := "\x27" ++ s ++ "\x27"

mutual

/-- Python `repr` of a parsed-JSON value (str → quoted, None/True/False,
lists and dicts with their Python rendering). -/
def pyRepr : Json → String
  | Json.null => "None"
  | Json.bool true => "True"
  | Json.bool false => "False"
  | Json.num n => toString n
  | Json.str s => pyQuote s
  | Json.arr xs => "[" ++ pyReprArr xs ++ "]"
  | Json.obj kvs => "\x7b" ++ pyReprObj kvs ++ "\x7d"

/-- Comma-separated reprs of a list's elements. -/
def pyReprArr : List Json → String
  | [] => ""
  | [x] => pyRepr x
  | x :: y :: xs => pyRepr x ++ ", " ++ pyReprArr (y :: xs)

/-- Comma-separated `key: value` reprs of a dict's items. -/
def pyReprObj : List (String × Json) → String
  | [] => ""
  | [(k, v)] => pyQuote k ++ ": " ++ pyRepr v
  | (k, v) :: y :: xs => pyQuote k ++ ": " ++ pyRepr v ++ ", " ++ pyReprObj (y :: xs)

end

/-- Python `str()` of a parsed-JSON value, as applied by an f-string:
identity on strings, `repr` otherwise. -/
def pyStr : Json → String
  | Json.str s => s
  | v => pyRepr v

/-- Python `dict.get(k, d)`. -/
def pyDictGet (kvs : List (String × Json)) (k : String) (d : Json) : Json :=
  match kvs.lookup k with
  | some v => v
  | none => d

-- Constants from const.py.

/-- const.py: `DEFAULT_TIMEOUT = 10` (seconds), passed as
`aiohttp.ClientTimeout(total=DEFAULT_TIMEOUT)` on every request. -/
def DEFAULT_TIMEOUT : Nat := 10

/-- const.py: `MAX_IMAGE_SIZE = 6 * 1024 * 1024`. -/
def MAX_IMAGE_SIZE : Nat := 6 * 1024 * 1024

/-- const.py: `SUPPORTED_IMAGE_FORMATS`. -/
def SUPPORTED_IMAGE_FORMATS : List String :=
  ["image/jpeg", "image/png", "image/bmp", "image/gif"]

/-- const.py error-code strings. -/
def ERROR_INVALID_IMAGE : String := "invalid_image"

def ERROR_NO_FACE_DETECTED : String := "no_face_detected"

def ERROR_MULTIPLE_FACES : String := "multiple_faces"

def ERROR_API_ERROR : String := "api_error"

def ERROR_QUOTA_EXCEEDED : String := "quota_exceeded"

def ERROR_AUTHENTICATION_FAILED : String := "authentication_failed"

/-- azure_client.py `AzureFaceAPIError(message, error_code)`: `str(err)` is
`message`; `error_code` defaults to `ERROR_API_ERROR` at the raise sites
that omit it. -/
structure AzureFaceAPIError where
  message : String
  error_code : String
deriving Repr, DecidableEq

/-- An HTTP response as seen inside `_make_request`: the status code, the
body text (`await response.text()`), and the result of `json.loads` on that
text (`none` models `json.JSONDecodeError`). -/
structure HttpResponse where
  status : Nat
  body_text : String
  body_json : Option Json

/-- What one `_make_request` invocation does: return a parsed body, raise
`AzureFaceAPIError`, or let a non-`AzureFaceAPIError` Python exception
(`json.JSONDecodeError` on a success body, `AttributeError` from `.get` on
a non-dict error payload, `asyncio.TimeoutError` at the total-timeout
ceiling) escape. -/
inductive RequestOutcome where
  | ok (result : Json) : RequestOutcome
  | apiError (e : AzureFaceAPIError) : RequestOutcome
  | pythonError (detail : String) : RequestOutcome

/-- Response classification of `_make_request` (azure_client.py lines
79-101): 401, then 429, then any other status >= 400 (JSON
`error.message` extraction with raw-text fallback, prefixed
`"API error: "`), then success with non-empty body (parse), then success
with empty body (`return dict()`). -/
def classifyResponse (r : HttpResponse) : RequestOutcome :=
  if r.status = 401 then
    .apiError ⟨"Authentication failed. Please check your API key.", ERROR_AUTHENTICATION_FAILED⟩
  else if r.status = 429 then
    .apiError ⟨"API quota exceeded. Please wait before retrying.", ERROR_QUOTA_EXCEEDED⟩
  else if 400 ≤ r.status then
    match r.body_json with
    | some (Json.obj kvs) =>
      match pyDictGet kvs "error" (Json.obj []) with
      | Json.obj ekvs =>
        .apiError ⟨"API error: " ++ pyStr (pyDictGet ekvs "message" (Json.str r.body_text)),
          ERROR_API_ERROR⟩
      | _ => .pythonError "AttributeError"
    | some _ => .pythonError "AttributeError"
    | none => .apiError ⟨"API error: " ++ r.body_text, ERROR_API_ERROR⟩
  else if r.body_text = "" then .ok (Json.obj [])
  else
    match r.body_json with
    | some j => .ok j
    | none => .pythonError "JSONDecodeError"

/-- What the `session.request` call inside `_make_request` yields: a
response; an `aiohttp.ClientError` (connection refused and DNS failures
are `ClientConnectorError`s, a `ClientError` subclass) whose `str()` is
`detail`; or a bare `asyncio.TimeoutError` raised when the
`ClientTimeout(total=DEFAULT_TIMEOUT)` per-request ceiling expires —
`asyncio.TimeoutError` is NOT an `aiohttp.ClientError`. -/
inductive TransportAttempt where
  | response (r : HttpResponse) : TransportAttempt
  | clientError (detail : String) : TransportAttempt
  | timeoutError (detail : String) : TransportAttempt

/-- azure_client.py `AzureFaceClient._make_request` (lines 68-105): classify
the response, or translate an `aiohttp.ClientError` into
`AzureFaceAPIError("Network error: " + str(err))` with the default
`api_error` code.  The `except aiohttp.ClientError` clause does not match
`asyncio.TimeoutError`, so a total-timeout expiry escapes the method
untranslated. -/
def _make_request : TransportAttempt → RequestOutcome
  | .response r => classifyResponse r
  | .clientError d => .apiError ⟨"Network error: " ++ d, ERROR_API_ERROR⟩
  | .timeoutError d => .pythonError ("TimeoutError: " ++ d)

/-- The three network-level failure families named by the spec, each
carrying a diagnostic string. -/
inductive NetFailure where
  | connectionRefused (detail : String) : NetFailure
  | dnsFailure (detail : String) : NetFailure
  | requestTimeout (detail : String) : NetFailure

/-- How each failure family surfaces out of `session.request`: connection
refused and DNS failures as `aiohttp.ClientError` subclasses
(`ClientConnectorError` / `ClientConnectorDNSError`), but the expiry of
the `total=10` request ceiling as a bare `asyncio.TimeoutError`, which is
not a `ClientError`. -/
def NetFailure.toAttempt : NetFailure → TransportAttempt
  | .connectionRefused d => .clientError d
  | .dnsFailure d => .clientError d
  | .requestTimeout d => .timeoutError d

-- Image validation (azure_client.py `_validate_image`, lines 226-252).

/-- What PIL reports for a buffer that `Image.open` + `verify()` accept:
the format name (`image.format`, upper-case, e.g. `"JPEG"`, `"WEBP"`). -/
structure ImageInfo where
  format : String

/-- A byte buffer as the validator observes it: its length, and the PIL
decode outcome (`none` models `Image.open`/`verify()` raising on a
non-image or truncated buffer). -/
structure ImageData where
  size : Nat
  decoded : Option ImageInfo

/-- The message of the size-limit error:
`f"Image size exceeds maximum of 6.0MB"` (MAX_IMAGE_SIZE / (1024*1024)
formatted with one decimal). -/
def SIZE_LIMIT_MESSAGE : String := "Image size exceeds maximum of 6.0MB"

/-- The generic message the blanket `except Exception` handler raises. -/
def CORRUPT_IMAGE_MESSAGE : String := "Invalid image format or corrupted image"

/-- Python `str.lower()` for the ASCII format names PIL produces
(character-by-character, so it evaluates by kernel reduction). -/
def pyLower (s : String) : String := String.mk (s.data.map Char.toLower)

/-- The body of the `try` block in `_validate_image` (lines 234-245):
decode with PIL, then check `"image/" + format.lower()` against the
allow-list, raising `AzureFaceAPIError("Unsupported image format: ...")`
for formats outside it. -/
def validate_image_try_body (img : ImageData) : Except AzureFaceAPIError Unit :=
  match img.decoded with
  | none => .error ⟨"PIL decode failed", ERROR_INVALID_IMAGE⟩
  | some info =>
    let mime_type := "image/" ++ pyLower info.format
    if mime_type ∈ SUPPORTED_IMAGE_FORMATS then .ok ()
    else
      .error ⟨"Unsupported image format: " ++ info.format ++
        ". Supported formats: JPEG, PNG, BMP, GIF", ERROR_INVALID_IMAGE⟩

/-- azure_client.py `AzureFaceClient._validate_image` (lines 226-252): the
size check first; then the `try` body, whose every failure — including the
`AzureFaceAPIError("Unsupported image format: ...")` it raises itself — is
caught by `except Exception` and replaced by the generic
`"Invalid image format or corrupted image"` error. -/
def _validate_image (img : ImageData) : Except AzureFaceAPIError Unit :=
  if MAX_IMAGE_SIZE < img.size then
    .error ⟨SIZE_LIMIT_MESSAGE, ERROR_INVALID_IMAGE⟩
  else
    match validate_image_try_body img with
    | .ok _ => .ok ()
    | .error _ => .error ⟨CORRUPT_IMAGE_MESSAGE, ERROR_INVALID_IMAGE⟩

-- Client operations (azure_client.py).

/-- A call to the transport primitive, recorded by method and URL (the
claims only need to count and locate such calls). -/
structure RequestRecord where
  method : String
  url : String
deriving Repr, DecidableEq

/-- azure_client.py `AzureFaceClient.detect_faces` (lines 107-122): build
the URL and params, validate the image, then call `_make_request` once.
Returns the list of transport calls made alongside the outcome; a
validation failure raises before any transport call. -/
def detect_faces (endpoint : String) (img : ImageData)
    (transport : RequestRecord → RequestOutcome) :
    List RequestRecord × RequestOutcome :=
  let url := endpoint ++ "/face/v1.0/detect"
  match _validate_image img with
  | .error e => ([], .apiError e)
  | .ok _ =>
    let req : RequestRecord := ⟨"POST", url⟩
    ([req], transport req)

/-- azure_client.py `AzureFaceClient.add_person_face` (lines 187-204):
validate the image, then POST the bytes to the persistedFaces URL. -/
def add_person_face (endpoint : String) (person_group_id : String)
    (person_id : String) (img : ImageData)
    (transport : RequestRecord → RequestOutcome) :
    List RequestRecord × RequestOutcome :=
  let url := endpoint ++ "/face/v1.0/persongroups/" ++ person_group_id ++
    "/persons/" ++ person_id ++ "/persistedFaces"
  match _validate_image img with
  | .error e => ([], .apiError e)
  | .ok _ =>
    let req : RequestRecord := ⟨"POST", url⟩
    ([req], transport req)

/-- The JSON body `AzureFaceClient.identify_faces` (lines 124-142) sends to
`POST /face/v1.0/identify`. -/
structure IdentifyRequestBody where
  faceIds : List String
  personGroupId : String
  maxNumOfCandidatesReturned : Nat
  confidenceThreshold : ℚ
deriving Repr, DecidableEq

/-- The Python default of `identify_faces`'s `max_candidates` parameter. -/
def IDENTIFY_DEFAULT_MAX_CANDIDATES : Nat := 1

/-- azure_client.py `AzureFaceClient.identify_faces` (lines 124-142): the
request body it assembles from its arguments (the source defaults
`max_candidates` to 1 and `confidence_threshold` to 0.5 when a caller
omits them). -/
def identify_faces_request (face_ids : List String) (person_group_id : String)
    (max_candidates : Nat) (confidence_threshold : ℚ) : IdentifyRequestBody :=
  ⟨face_ids, person_group_id, max_candidates, confidence_threshold⟩

/-- azure_client.py `AzureFaceClient.test_connection` (lines 254-260):
`list_person_groups` is a bare GET through `_make_request`; any
`AzureFaceAPIError` collapses to `false`, success to `true`, and any other
exception (modelled by `RequestOutcome.pythonError`) propagates. -/
def test_connection (t : TransportAttempt) : Except String Bool :=
  match _make_request t with
  | .ok _ => .ok true
  | .apiError _ => .ok false
  | .pythonError d => .error d

-- Service handlers (services.py).

/-- How a handler invocation ends: return normally, re-raise a
`HomeAssistantError` with the given message, or (for the train-group
model) run past the supplied sequence of poll replies. -/
inductive RunOutcome where
  | ok : RunOutcome
  | raised (msg : String) : RunOutcome
  | exhausted : RunOutcome
deriving Repr, DecidableEq

/-- One face dict from the detect response: `face["faceId"]` is accessed
unconditionally, `face.get("faceAttributes", dict())` with a default. -/
structure Face where
  faceId : String
  faceAttributes : Option Json

/-- One candidate dict from the identify response: `candidate["personId"]`
and `candidate["confidence"]` are accessed unconditionally. -/
structure Candidate where
  personId : String
  confidence : ℚ

/-- One entry of the identify response: `identification["faceId"]` is
accessed unconditionally, `identification.get("candidates", [])` with a
default. -/
structure Identification where
  faceId : String
  candidates : Option (List Candidate)

/-- One entry of the `results` list the recognition handler assembles
(services.py lines 99-114). -/
structure ResultEntry where
  face_id : String
  face_attributes : Json
  candidates : List Candidate

/-- The payload of an `azure_face_recognition_result` event, restricted to
the fields the claims mention (the constant `camera_entity` is omitted). -/
structure RecEvent where
  faces_detected : Nat
  identifications : List ResultEntry
  error : Option String

/-- The result-shaping loop of `async_recognize_face` (services.py lines
99-114): `for i, identification in enumerate(identifications)` indexes
`faces[i]`; an out-of-range index is Python `IndexError`, modelled as
`none`. -/
def processResults (faces : List Face) : List Identification → Nat → Option (List ResultEntry)
  | [], _ => some []
  | ident :: rest, i =>
    match faces[i]? with
    | none => none
    | some face =>
      match processResults faces rest (i + 1) with
      | none => none
      | some entries =>
        some (⟨ident.faceId, face.faceAttributes.getD (Json.obj []),
          (ident.candidates.getD []).map (fun c => ⟨c.personId, c.confidence⟩)⟩ :: entries)

/-- services.py `async_recognize_face` (lines 46-148), from the point the
camera image is in hand.  Parameters: the person group id, the
caller-supplied confidence threshold, the outcome of
`client.detect_faces`, and the remote identify behaviour as a function of
the request body `client.identify_faces` sends.  Returns the identify
request bodies issued, the events fired on the bus, and how the handler
ends.  An `AzureFaceAPIError` fires a result event carrying `str(err)` and
re-raises wrapped; the zero/multiple-face guards fire a tagged result
event and return normally; an `IndexError` in the result loop is caught by
the blanket `except Exception`, which re-raises without firing. -/
def async_recognize_face (person_group_id : String) (confidence_threshold : ℚ)
    (detect : Except AzureFaceAPIError (List Face))
    (identify : IdentifyRequestBody → Except AzureFaceAPIError (List Identification)) :
    List IdentifyRequestBody × List RecEvent × RunOutcome :=
  match detect with
  | .error e =>
    ([], [⟨0, [], some e.message⟩], .raised ("Azure Face API error: " ++ e.message))
  | .ok faces =>
    if faces.isEmpty then
      ([], [⟨0, [], some ERROR_NO_FACE_DETECTED⟩], .ok)
    else if 1 < faces.length then
      ([], [⟨faces.length, [], some ERROR_MULTIPLE_FACES⟩], .ok)
    else
      let face_ids := faces.map Face.faceId
      let req := identify_faces_request face_ids person_group_id
        IDENTIFY_DEFAULT_MAX_CANDIDATES confidence_threshold
      match identify req with
      | .error e =>
        ([req], [⟨0, [], some e.message⟩], .raised ("Azure Face API error: " ++ e.message))
      | .ok idents =>
        match processResults faces idents 0 with
        | none => ([req], [], .raised "Face recognition failed: list index out of range")
        | some results => ([req], [⟨faces.length, results, none⟩], .ok)

-- Training orchestrator (services.py `async_train_group`, lines 245-296).

/-- One training-status payload from
`get_person_group_training_status`: `status["status"]` is accessed
unconditionally, `status.get("message", "Training failed")` with a
default. -/
structure TrainingStatus where
  status : String
  message : Option String

/-- One reply to a poll of the training status: the parsed payload, or an
`AzureFaceAPIError` raised by the underlying request. -/
inductive PollReply where
  | ok (st : TrainingStatus) : PollReply
  | err (e : AzureFaceAPIError) : PollReply

/-- The observable actions of the train-group handler: the
`train_person_group` call, one `get_person_group_training_status` call per
loop iteration, and the `asyncio.sleep(1)` between polls. -/
inductive TgAction where
  | start : TgAction
  | poll : TgAction
  | sleepOne : TgAction
deriving Repr, DecidableEq

/-- How the `try` body of `async_train_group` ends. -/
inductive TgTryResult where
  | success : TgTryResult
  | azureErr (e : AzureFaceAPIError) : TgTryResult
  | haErr (msg : String) : TgTryResult
  | exhausted : TgTryResult

/-- The `while True` poll loop (services.py lines 257-268): poll; break on
`"succeeded"`; raise `HomeAssistantError("Training failed: " + message)`
on `"failed"`; otherwise sleep one second and poll again.  The loop
consumes one supplied reply per poll; an empty remainder means the
scenario provides no further replies (`exhausted`). -/
def tg_loop : List PollReply → List TgAction × TgTryResult
  | [] => ([], .exhausted)
  | .err e :: _ => ([.poll], .azureErr e)
  | .ok st :: rest =>
    if st.status = "succeeded" then ([.poll], .success)
    else if st.status = "failed" then
      ([.poll], .haErr ("Training failed: " ++ st.message.getD "Training failed"))
    else
      let r := tg_loop rest
      (.poll :: .sleepOne :: r.1, r.2)

/-- The payload of an `azure_face_training_result` event fired by the
train-group handler, restricted to the fields the claims mention. -/
structure TgEvent where
  action : String
  status : Option String
  error : Option String
deriving Repr, DecidableEq

/-- services.py `async_train_group` (lines 245-296).  `start` is the
outcome of `client.train_person_group` (`some e` = it raised), `polls` the
successive poll replies.  An `AzureFaceAPIError` anywhere in the `try` is
caught at line 282: an error event fires, then
`HomeAssistantError("Azure Face API error: " + str(err))` is raised.  The
`HomeAssistantError("Training failed: ...")` raised on a terminal
`"failed"` status is instead caught by the blanket `except Exception` at
line 294, which re-raises `"Group training failed: ..."` WITHOUT firing
any event.  Success fires the succeeded event and returns. -/
def async_train_group (start : Option AzureFaceAPIError) (polls : List PollReply) :
    List TgAction × List TgEvent × RunOutcome :=
  match start with
  | some e =>
    ([.start], [⟨"group_trained", none, some e.message⟩],
      .raised ("Azure Face API error: " ++ e.message))
  | none =>
    let r := tg_loop polls
    match r.2 with
    | .success =>
      (.start :: r.1, [⟨"group_trained", some "succeeded", none⟩], .ok)
    | .azureErr e =>
      (.start :: r.1, [⟨"group_trained", none, some e.message⟩],
        .raised ("Azure Face API error: " ++ e.message))
    | .haErr m =>
      (.start :: r.1, [], .raised ("Group training failed: " ++ m))
    | .exhausted => (.start :: r.1, [], .exhausted)

-- Upload-person-image source resolution (services.py lines 344-391).

/-- The image source `async_upload_person_image` settles on. -/
inductive ImageSource where
  | inlineData (b64 : String) : ImageSource
  | filePath (path : String) : ImageSource
  | urlSource (u : String) : ImageSource
deriving Repr, DecidableEq

/-- How the handler's input checks end: raise
`HomeAssistantError("Must provide either ...")` at line 353-354 — before
`get_azure_face_client` and hence before any client call — or proceed to
fetch bytes from exactly one source. -/
inductive UploadResolution where
  | raisesBeforeClient (msg : String) : UploadResolution
  | proceedsWith (src : ImageSource) : UploadResolution
deriving Repr, DecidableEq

/-- services.py `async_upload_person_image` (lines 344-391), input
resolution: `if not any([image_data_b64, image_path, image_url])` raises
first; otherwise `if image_data_b64: ... elif image_path: ... elif
image_url: ...` picks the source.  Python truthiness makes an absent
parameter and an empty string equivalent, so each optional parameter is
collapsed with `getD ""`. -/
def async_upload_person_image_source (image_data_b64 image_path image_url : Option String) :
    UploadResolution :=
  let d := image_data_b64.getD ""
  let p := image_path.getD ""
  let u := image_url.getD ""
  if d = "" ∧ p = "" ∧ u = "" then
    .raisesBeforeClient "Must provide either image_data, image_path, or image_url"
  else if d ≠ "" then .proceedsWith (.inlineData d)
  else if p ≠ "" then .proceedsWith (.filePath p)
  else .proceedsWith (.urlSource u)

/-!  Theorems settling the claims. -/

/-- C1 (counterexample): on a 418 response whose parsed body is
`\x7b"error": \x7b"message": "x"\x7d\x7d`, `_make_request` raises
`ApiError` with message `"API error: x"`, not the `error.message` field
`"x"` itself — the claim's description of the message is off by the
`"API error: "` prefix. -/
theorem c1_counterexample :
    _make_request (.response ⟨418, "\x7b\"error\": \x7b\"message\": \"x\"\x7d\x7d",
        some (Json.obj [("error", Json.obj [("message", Json.str "x")])])⟩) =
      .apiError ⟨"API error: x", ERROR_API_ERROR⟩ ∧
    "API error: x" ≠ "x" := by
  exact ⟨rfl, by decide⟩

/-- C1 (amended): `_make_request` classifies responses with the stated
priority — 401 raises `authentication_failed`, 429 raises
`quota_exceeded`, any other status >= 400 raises `api_error` with message
`"API error: "` followed by the parsed body's `error.message` field when
parsing succeeds and by the raw response text when parsing fails, a
status < 400 with non-empty body returns the parsed body, and a
status < 400 with empty body returns an empty dict. -/
theorem c1_transport_classification (r : HttpResponse) :
    (r.status = 401 → _make_request (.response r) =
      .apiError ⟨"Authentication failed. Please check your API key.",
        ERROR_AUTHENTICATION_FAILED⟩) ∧
    (r.status = 429 → _make_request (.response r) =
      .apiError ⟨"API quota exceeded. Please wait before retrying.", ERROR_QUOTA_EXCEEDED⟩) ∧
    (∀ kvs ekvs m, r.status ≠ 401 → r.status ≠ 429 → 400 ≤ r.status →
      r.body_json = some (Json.obj kvs) →
      pyDictGet kvs "error" (Json.obj []) = Json.obj ekvs →
      pyDictGet ekvs "message" (Json.str r.body_text) = Json.str m →
      _make_request (.response r) = .apiError ⟨"API error: " ++ m, ERROR_API_ERROR⟩) ∧
    (r.status ≠ 401 → r.status ≠ 429 → 400 ≤ r.status → r.body_json = none →
      _make_request (.response r) =
        .apiError ⟨"API error: " ++ r.body_text, ERROR_API_ERROR⟩) ∧
    (∀ j, r.status < 400 → r.body_text ≠ "" → r.body_json = some j →
      _make_request (.response r) = .ok j) ∧
    (r.status < 400 → r.body_text = "" → _make_request (.response r) = .ok (Json.obj [])) := by
  refine ⟨?_, ?_, ?_, ?_, ?_, ?_⟩
  · intro h
    simp [_make_request, classifyResponse, h]
  · intro h
    simp [_make_request, classifyResponse, h]
  · intro kvs ekvs m h1 h2 h3 hj he hm
    simp [_make_request, classifyResponse, h1, h2, h3, hj, he, hm, pyStr]
  · intro h1 h2 h3 hj
    simp [_make_request, classifyResponse, h1, h2, h3, hj]
  · intro j h1 h2 hj
    have h401 : r.status ≠ 401 := by omega
    have h429 : r.status ≠ 429 := by omega
    have h400 : ¬ 400 ≤ r.status := by omega
    simp [_make_request, classifyResponse, h401, h429, h400, h2, hj]
  · intro h1 h2
    have h401 : r.status ≠ 401 := by omega
    have h429 : r.status ≠ 429 := by omega
    have h400 : ¬ 400 ≤ r.status := by omega
    simp [_make_request, classifyResponse, h401, h429, h400, h2]

/-- C1 (witness): the six classification cases instantiated at concrete
responses. -/
theorem c1_transport_classification_witness :
    _make_request (.response ⟨401, "", none⟩) =
      .apiError ⟨"Authentication failed. Please check your API key.",
        ERROR_AUTHENTICATION_FAILED⟩ ∧
    _make_request (.response ⟨429, "", none⟩) =
      .apiError ⟨"API quota exceeded. Please wait before retrying.", ERROR_QUOTA_EXCEEDED⟩ ∧
    _make_request (.response ⟨418, "ignored",
        some (Json.obj [("error", Json.obj [("message", Json.str "boom")])])⟩) =
      .apiError ⟨"API error: boom", ERROR_API_ERROR⟩ ∧
    _make_request (.response ⟨418, "plain text", none⟩) =
      .apiError ⟨"API error: plain text", ERROR_API_ERROR⟩ ∧
    _make_request (.response ⟨200, "[]", some (Json.arr [])⟩) = .ok (Json.arr []) ∧
    _make_request (.response ⟨200, "", none⟩) = .ok (Json.obj []) := by
  refine ⟨?_, ?_, ?_, ?_, ?_, ?_⟩
  · exact (c1_transport_classification ⟨401, "", none⟩).1 rfl
  · exact (c1_transport_classification ⟨429, "", none⟩).2.1 rfl
  · exact (c1_transport_classification ⟨418, "ignored", _⟩).2.2.1
      [("error", Json.obj [("message", Json.str "boom")])]
      [("message", Json.str "boom")] "boom"
      (by decide) (by decide) (by decide) rfl rfl rfl
  · exact (c1_transport_classification ⟨418, "plain text", none⟩).2.2.2.1
      (by decide) (by decide) (by decide) rfl
  · exact (c1_transport_classification ⟨200, "[]", some (Json.arr [])⟩).2.2.2.2.1
      (Json.arr []) (by decide) (by decide) rfl
  · exact (c1_transport_classification ⟨200, "", none⟩).2.2.2.2.2 (by decide) rfl

/-- C2: with zero detected faces the handler fires a `no_face_detected`
result and never calls identify; with more than one face it fires a
`multiple_faces` result and never calls identify; with exactly one face it
calls identify exactly once with that face's id and the caller-supplied
threshold, and the fired result pairs the face's attributes with the
returned candidates. -/
theorem c2_recognition_workflow (gid : String) (θ : ℚ)
    (identify : IdentifyRequestBody → Except AzureFaceAPIError (List Identification)) :
    (async_recognize_face gid θ (.ok []) identify =
      ([], [⟨0, [], some ERROR_NO_FACE_DETECTED⟩], .ok)) ∧
    (∀ faces : List Face, 1 < faces.length →
      async_recognize_face gid θ (.ok faces) identify =
        ([], [⟨faces.length, [], some ERROR_MULTIPLE_FACES⟩], .ok)) ∧
    (∀ f ident,
      identify (identify_faces_request [f.faceId] gid IDENTIFY_DEFAULT_MAX_CANDIDATES θ) =
        .ok [ident] →
      async_recognize_face gid θ (.ok [f]) identify =
        ([identify_faces_request [f.faceId] gid IDENTIFY_DEFAULT_MAX_CANDIDATES θ],
          [⟨1, [⟨ident.faceId, f.faceAttributes.getD (Json.obj []),
            (ident.candidates.getD []).map (fun c => ⟨c.personId, c.confidence⟩)⟩], none⟩],
          .ok)) := by
  refine ⟨rfl, ?_, ?_⟩
  · intro faces h
    have h0 : ¬ faces.isEmpty := by
      cases faces with
      | nil => simp at h
      | cons a l => simp
    simp [async_recognize_face, h0, h]
  · intro f ident hid
    simp only [identify_faces_request] at hid
    simp [async_recognize_face, identify_faces_request, hid, processResults]

/-- C2 (witness): the three cases instantiated, with a concrete single
face paired against a concrete candidate of confidence 0.92. -/
theorem c2_recognition_workflow_witness :
    (async_recognize_face "family" (7 / 10) (.ok [])
        (fun _ => .ok [⟨"f1", some [⟨"p1", 92 / 100⟩]⟩]) =
      ([], [⟨0, [], some ERROR_NO_FACE_DETECTED⟩], .ok)) ∧
    (async_recognize_face "family" (7 / 10) (.ok [⟨"f1", none⟩, ⟨"f2", none⟩])
        (fun _ => .ok [⟨"f1", some [⟨"p1", 92 / 100⟩]⟩]) =
      ([], [⟨2, [], some ERROR_MULTIPLE_FACES⟩], .ok)) ∧
    (async_recognize_face "family" (7 / 10) (.ok [⟨"f1", none⟩])
        (fun _ => .ok [⟨"f1", some [⟨"p1", 92 / 100⟩]⟩]) =
      ([identify_faces_request ["f1"] "family" IDENTIFY_DEFAULT_MAX_CANDIDATES (7 / 10)],
        [⟨1, [⟨"f1", Json.obj [], [⟨"p1", 92 / 100⟩]⟩], none⟩], .ok)) := by
  refine ⟨?_, ?_, ?_⟩
  · exact (c2_recognition_workflow "family" (7 / 10) _).1
  · exact (c2_recognition_workflow "family" (7 / 10) _).2.1 [⟨"f1", none⟩, ⟨"f2", none⟩]
      (by decide)
  · exact (c2_recognition_workflow "family" (7 / 10) _).2.2 ⟨"f1", none⟩
      ⟨"f1", some [⟨"p1", 92 / 100⟩]⟩ rfl

/-- Helper: the poll loop walks `n` non-terminal `"running"` replies,
emitting a poll and a one-second sleep for each, before handling the
remaining replies. -/
theorem tg_loop_replicate_running (n : Nat) (tail : List PollReply) :
    tg_loop (List.replicate n (.ok ⟨"running", none⟩) ++ tail) =
      ((List.replicate n [TgAction.poll, TgAction.sleepOne]).flatten ++ (tg_loop tail).1,
        (tg_loop tail).2) := by
  induction n with
  | zero => simp
  | succ k ih => simp [List.replicate_succ, tg_loop, ih]

/-- Helper: each `[poll, sleepOne]` block contributes one poll. -/
theorem count_poll_join (n : Nat) :
    ((List.replicate n [TgAction.poll, TgAction.sleepOne]).flatten).count TgAction.poll = n := by
  induction n with
  | zero => simp
  | succ k ih => simp [List.replicate_succ, List.count_cons, ih]

/-- C3: the train-group orchestrator issues `startTraining` once and then
polls with a one-second sleep between polls; after `n` `"running"` replies
a `"succeeded"` reply ends the run successfully with exactly `n + 1` polls
(so `[running, running, succeeded]` takes exactly 3), and a `"failed"`
reply with message `m` raises a fatal error carrying `m` after exactly
`n + 1` polls, with no further polls regardless of any later replies. -/
theorem c3_training_orchestrator (n : Nat) (m : String) (rest : List PollReply) :
    (async_train_group none
        (List.replicate n (.ok ⟨"running", none⟩) ++ [.ok ⟨"succeeded", none⟩]) =
      (.start :: ((List.replicate n [TgAction.poll, TgAction.sleepOne]).flatten ++ [.poll]),
        [⟨"group_trained", some "succeeded", none⟩], .ok)) ∧
    ((async_train_group none
        (List.replicate n (.ok ⟨"running", none⟩) ++ [.ok ⟨"succeeded", none⟩])).1.count
      TgAction.poll = n + 1) ∧
    (async_train_group none
        (List.replicate n (.ok ⟨"running", none⟩) ++ .ok ⟨"failed", some m⟩ :: rest) =
      (.start :: ((List.replicate n [TgAction.poll, TgAction.sleepOne]).flatten ++ [.poll]),
        [], .raised ("Group training failed: " ++ ("Training failed: " ++ m)))) ∧
    ((async_train_group none
        (List.replicate n (.ok ⟨"running", none⟩) ++ .ok ⟨"failed", some m⟩ :: rest)).1.count
      TgAction.poll = n + 1) := by
  have hs := tg_loop_replicate_running n [.ok ⟨"succeeded", none⟩]
  have hf := tg_loop_replicate_running n (.ok ⟨"failed", some m⟩ :: rest)
  have hs2 : tg_loop [PollReply.ok ⟨"succeeded", none⟩] = ([TgAction.poll], .success) := rfl
  have hf2 : tg_loop (PollReply.ok ⟨"failed", some m⟩ :: rest) =
      ([TgAction.poll], .haErr ("Training failed: " ++ m)) := rfl
  rw [hs2] at hs
  rw [hf2] at hf
  refine ⟨?_, ?_, ?_, ?_⟩
  · simp [async_train_group, hs]
  · simp [async_train_group, hs, List.count_cons, List.count_append, count_poll_join]
  · simp [async_train_group, hf]
  · simp [async_train_group, hf, List.count_cons, List.count_append, count_poll_join]

/-- C4: a buffer longer than 6 MiB is rejected by the validator with the
`invalid_image` error code, and neither `detect_faces` nor
`add_person_face` issues any call to the transport primitive for it. -/
theorem c4_oversize_image_rejected (endpoint gid pid : String) (img : ImageData)
    (transport : RequestRecord → RequestOutcome) (h : 6 * 1024 * 1024 < img.size) :
    detect_faces endpoint img transport =
      ([], .apiError ⟨SIZE_LIMIT_MESSAGE, ERROR_INVALID_IMAGE⟩) ∧
    add_person_face endpoint gid pid img transport =
      ([], .apiError ⟨SIZE_LIMIT_MESSAGE, ERROR_INVALID_IMAGE⟩) ∧
    ERROR_INVALID_IMAGE = "invalid_image" := by
  have hv : _validate_image img = .error ⟨SIZE_LIMIT_MESSAGE, ERROR_INVALID_IMAGE⟩ := by
    have : MAX_IMAGE_SIZE < img.size := h
    simp [_validate_image, this]
  refine ⟨?_, ?_, rfl⟩
  · simp [detect_faces, hv]
  · simp [add_person_face, hv]

/-- C4 (witness): a buffer of 6 MiB + 1 bytes, even one PIL would decode as
JPEG, is rejected without any transport call. -/
theorem c4_oversize_image_rejected_witness :
    detect_faces "https://eastus.api.cognitive.microsoft.com"
        ⟨6 * 1024 * 1024 + 1, some ⟨"JPEG"⟩⟩ (fun _ => .ok (Json.obj [])) =
      ([], .apiError ⟨SIZE_LIMIT_MESSAGE, ERROR_INVALID_IMAGE⟩) ∧
    add_person_face "https://eastus.api.cognitive.microsoft.com" "family" "p1"
        ⟨6 * 1024 * 1024 + 1, some ⟨"JPEG"⟩⟩ (fun _ => .ok (Json.obj [])) =
      ([], .apiError ⟨SIZE_LIMIT_MESSAGE, ERROR_INVALID_IMAGE⟩) := by
  refine ⟨?_, ?_⟩
  · exact (c4_oversize_image_rejected "https://eastus.api.cognitive.microsoft.com" "family"
      "p1" ⟨6 * 1024 * 1024 + 1, some ⟨"JPEG"⟩⟩ (fun _ => .ok (Json.obj [])) (by decide)).1
  · exact (c4_oversize_image_rejected "https://eastus.api.cognitive.microsoft.com" "family"
      "p1" ⟨6 * 1024 * 1024 + 1, some ⟨"JPEG"⟩⟩ (fun _ => .ok (Json.obj [])) (by decide)).2.1

/-- C5 (code bug): for a buffer PIL decodes as the unsupported format
`WEBP`, the `try` body of `_validate_image` does raise the intended
`"Unsupported image format: WEBP..."` error, but the blanket
`except Exception` handler catches that very error and re-raises the
generic `"Invalid image format or corrupted image"` instead, so the error
the caller sees never names the detected format. -/
theorem c5_unsupported_format_message_swallowed :
    _validate_image ⟨100, some ⟨"WEBP"⟩⟩ =
      .error ⟨CORRUPT_IMAGE_MESSAGE, ERROR_INVALID_IMAGE⟩ ∧
    validate_image_try_body ⟨100, some ⟨"WEBP"⟩⟩ =
      .error ⟨"Unsupported image format: WEBP. Supported formats: JPEG, PNG, BMP, GIF",
        ERROR_INVALID_IMAGE⟩ ∧
    CORRUPT_IMAGE_MESSAGE ≠
      "Unsupported image format: WEBP. Supported formats: JPEG, PNG, BMP, GIF" := by
  refine ⟨by rfl, by rfl, by decide⟩

/-- C6 (counterexample): when the `listPersonGroups` GET gets a 200
response whose body is not valid JSON, the underlying call raises
`json.JSONDecodeError` — not a typed client error — and `test_connection`
propagates it instead of returning `true`, so "returns true otherwise" as
stated fails. -/
theorem c6_counterexample :
    _make_request (.response ⟨200, "not json", none⟩) = .pythonError "JSONDecodeError" ∧
    test_connection (.response ⟨200, "not json", none⟩) = .error "JSONDecodeError" ∧
    test_connection (.response ⟨200, "not json", none⟩) ≠ .ok true := by
  refine ⟨rfl, rfl, ?_⟩
  intro h
  rw [show test_connection (.response ⟨200, "not json", none⟩) =
    .error "JSONDecodeError" from rfl] at h
  exact Except.noConfusion h

/-- C6 (amended): `test_connection` returns `false` exactly when the
underlying call raises an `AzureFaceAPIError` (the typed client errors),
returns `true` whenever the call succeeds, and anything it propagates is a
non-typed Python exception — a typed client error is never propagated. -/
theorem c6_test_connection (t : TransportAttempt) :
    (test_connection t = .ok false ↔ ∃ e, _make_request t = .apiError e) ∧
    (∀ j, _make_request t = .ok j → test_connection t = .ok true) ∧
    (∀ d, test_connection t = .error d → _make_request t = .pythonError d) := by
  refine ⟨?_, ?_, ?_⟩
  · constructor
    · intro h
      rcases ho : _make_request t with j | e | d <;>
        simp only [test_connection, ho] at h ⊢
      · simp at h
      · exact ⟨e, rfl⟩
      · simp at h
    · rintro ⟨e, he⟩
      simp only [test_connection, he]
  · intro j hj
    simp only [test_connection, hj]
  · intro d hd
    rcases ho : _make_request t with j | e | d2 <;>
      simp only [test_connection, ho] at hd <;> simp_all

/-- C6 (witness): a 401 collapses to `false`, a 200 with a JSON list body
returns `true`, and the propagated error on a 200 non-JSON body is the
non-typed `JSONDecodeError`. -/
theorem c6_test_connection_witness :
    test_connection (.response ⟨401, "", none⟩) = .ok false ∧
    test_connection (.response ⟨200, "[]", some (Json.arr [])⟩) = .ok true ∧
    _make_request (.response ⟨200, "x", none⟩) = .pythonError "JSONDecodeError" := by
  refine ⟨?_, ?_, ?_⟩
  · exact (c6_test_connection (.response ⟨401, "", none⟩)).1.mpr ⟨_, rfl⟩
  · exact (c6_test_connection (.response ⟨200, "[]", some (Json.arr [])⟩)).2.1
      (Json.arr []) rfl
  · exact (c6_test_connection (.response ⟨200, "x", none⟩)).2.2 "JSONDecodeError" rfl

/-- C7 (counterexample): an expiry of the `total=10` per-request ceiling
raises `asyncio.TimeoutError`, which is not an `aiohttp.ClientError`, so
`except aiohttp.ClientError` does not catch it: the timeout escapes
`_make_request` untranslated instead of becoming the claimed
`ApiError("Network error: <detail>")`. -/
theorem c7_timeout_counterexample :
    _make_request (NetFailure.requestTimeout "deadline exceeded").toAttempt =
      .pythonError ("TimeoutError: " ++ "deadline exceeded") ∧
    _make_request (NetFailure.requestTimeout "deadline exceeded").toAttempt ≠
      .apiError ⟨"Network error: " ++ "deadline exceeded", ERROR_API_ERROR⟩ := by
  refine ⟨rfl, ?_⟩
  intro h
  rw [show _make_request (NetFailure.requestTimeout "deadline exceeded").toAttempt =
    .pythonError ("TimeoutError: " ++ "deadline exceeded") from rfl] at h
  exact RequestOutcome.noConfusion h

/-- C7 (amended): network-level failures raised as `aiohttp.ClientError` —
connection refused and DNS failure — surface from `_make_request` as an
`api_error`-tagged `AzureFaceAPIError` with message `"Network error: "`
followed by the underlying diagnostic; a request timeout at the fixed
`DEFAULT_TIMEOUT = 10` second ceiling instead raises
`asyncio.TimeoutError`, which the `except aiohttp.ClientError` clause does
not catch, so it escapes untranslated. -/
theorem c7_network_error_translation (d : String) :
    _make_request (NetFailure.connectionRefused d).toAttempt =
      .apiError ⟨"Network error: " ++ d, ERROR_API_ERROR⟩ ∧
    _make_request (NetFailure.dnsFailure d).toAttempt =
      .apiError ⟨"Network error: " ++ d, ERROR_API_ERROR⟩ ∧
    _make_request (NetFailure.requestTimeout d).toAttempt =
      .pythonError ("TimeoutError: " ++ d) ∧
    DEFAULT_TIMEOUT = 10 :=
  ⟨rfl, rfl, rfl, rfl⟩

/-- C8 (counterexample): the train-group handler, on a first poll reply
with terminal status `"failed"`, re-raises through the blanket
`except Exception` handler WITHOUT firing any event — a failure path with
no notification, contradicting the claim that every failure path fires
one before re-raising. -/
theorem c8_counterexample :
    async_train_group none [.ok ⟨"failed", some "bad data"⟩] =
      ([.start, .poll], [], .raised "Group training failed: Training failed: bad data") := by
  rfl

/-- C8 (amended): failure paths raised as `AzureFaceAPIError` fire a
structured notification carrying the error before re-raising, in both the
train-group and the recognize-face handlers; but failure paths that raise
other exceptions — the train-group terminal `"failed"` status (wrapped as
`HomeAssistantError`) and the recognize-face result-shaping `IndexError`
— re-raise without firing any event. -/
theorem c8_error_notification_policy (polls : List PollReply) (gid : String) (θ : ℚ)
    (identify : IdentifyRequestBody → Except AzureFaceAPIError (List Identification)) :
    (∀ e : AzureFaceAPIError, async_train_group (some e) polls =
      ([.start], [⟨"group_trained", none, some e.message⟩],
        .raised ("Azure Face API error: " ++ e.message))) ∧
    (∀ e, (tg_loop polls).2 = .azureErr e →
      (async_train_group none polls).2.1 = [⟨"group_trained", none, some e.message⟩] ∧
      (async_train_group none polls).2.2 = .raised ("Azure Face API error: " ++ e.message)) ∧
    (∀ m, (tg_loop polls).2 = .haErr m →
      (async_train_group none polls).2.1 = [] ∧
      (async_train_group none polls).2.2 = .raised ("Group training failed: " ++ m)) ∧
    (∀ e : AzureFaceAPIError, async_recognize_face gid θ (.error e) identify =
      ([], [⟨0, [], some e.message⟩], .raised ("Azure Face API error: " ++ e.message))) ∧
    (∀ f e, identify (identify_faces_request [f.faceId] gid
        IDENTIFY_DEFAULT_MAX_CANDIDATES θ) = .error e →
      async_recognize_face gid θ (.ok [f]) identify =
        ([identify_faces_request [f.faceId] gid IDENTIFY_DEFAULT_MAX_CANDIDATES θ],
          [⟨0, [], some e.message⟩], .raised ("Azure Face API error: " ++ e.message))) ∧
    (∀ f idents, identify (identify_faces_request [f.faceId] gid
        IDENTIFY_DEFAULT_MAX_CANDIDATES θ) = .ok idents →
      processResults [f] idents 0 = none →
      async_recognize_face gid θ (.ok [f]) identify =
        ([identify_faces_request [f.faceId] gid IDENTIFY_DEFAULT_MAX_CANDIDATES θ],
          [], .raised "Face recognition failed: list index out of range")) := by
  refine ⟨fun e => rfl, ?_, ?_, fun e => rfl, ?_, ?_⟩
  · intro e he
    simp [async_train_group, he]
  · intro m hm
    simp [async_train_group, hm]
  · intro f e hid
    simp only [identify_faces_request] at hid
    simp [async_recognize_face, identify_faces_request, hid]
  · intro f idents hid hp
    simp only [identify_faces_request] at hid
    simp [async_recognize_face, identify_faces_request, hid, hp]

/-- C8 (amended, witness): the six policy cases at concrete inputs — in
particular an identify response with two entries for a single face, whose
`IndexError` re-raises with no event. -/
theorem c8_error_notification_policy_witness :
    async_train_group (some ⟨"boom", "api_error"⟩) [] =
      ([.start], [⟨"group_trained", none, some "boom"⟩],
        .raised "Azure Face API error: boom") ∧
    (async_train_group none [.err ⟨"quota", "quota_exceeded"⟩]).2.1 =
      [⟨"group_trained", none, some "quota"⟩] ∧
    (async_train_group none [.ok ⟨"failed", some "m1"⟩]).2.1 = [] ∧
    async_recognize_face "family" (7 / 10) (.error ⟨"bad image", "invalid_image"⟩)
        (fun _ => .ok []) =
      ([], [⟨0, [], some "bad image"⟩], .raised "Azure Face API error: bad image") ∧
    async_recognize_face "family" (7 / 10) (.ok [⟨"f1", none⟩])
        (fun _ => .error ⟨"boom2", "api_error"⟩) =
      ([identify_faces_request ["f1"] "family" IDENTIFY_DEFAULT_MAX_CANDIDATES (7 / 10)],
        [⟨0, [], some "boom2"⟩], .raised "Azure Face API error: boom2") ∧
    async_recognize_face "family" (7 / 10) (.ok [⟨"f1", none⟩])
        (fun _ => .ok [⟨"f1", none⟩, ⟨"f2", none⟩]) =
      ([identify_faces_request ["f1"] "family" IDENTIFY_DEFAULT_MAX_CANDIDATES (7 / 10)],
        [], .raised "Face recognition failed: list index out of range") := by
  refine ⟨?_, ?_, ?_, ?_, ?_, ?_⟩
  · exact (c8_error_notification_policy [] "g" 0 (fun _ => .ok [])).1 ⟨"boom", "api_error"⟩
  · exact ((c8_error_notification_policy [.err ⟨"quota", "quota_exceeded"⟩] "g" 0
      (fun _ => .ok [])).2.1 ⟨"quota", "quota_exceeded"⟩ rfl).1
  · exact ((c8_error_notification_policy [.ok ⟨"failed", some "m1"⟩] "g" 0
      (fun _ => .ok [])).2.2.1 "Training failed: m1" rfl).1
  · exact (c8_error_notification_policy [] "family" (7 / 10)
      (fun _ => .ok [])).2.2.2.1 ⟨"bad image", "invalid_image"⟩
  · exact (c8_error_notification_policy [] "family" (7 / 10)
      (fun _ => .error ⟨"boom2", "api_error"⟩)).2.2.2.2.1 ⟨"f1", none⟩
      ⟨"boom2", "api_error"⟩ rfl
  · exact (c8_error_notification_policy [] "family" (7 / 10)
      (fun _ => .ok [⟨"f1", none⟩, ⟨"f2", none⟩])).2.2.2.2.2 ⟨"f1", none⟩
      [⟨"f1", none⟩, ⟨"f2", none⟩] rfl rfl

/-- C9: the upload handler resolves its image source with fixed
precedence — a (truthy) inline `image_data` wins, else `image_path`, else
`image_url` — and when none of the three is supplied (absent or empty,
which Python truthiness conflates) it raises before any client call. -/
theorem c9_upload_source_precedence (image_data_b64 image_path image_url : Option String) :
    (image_data_b64.getD "" ≠ "" →
      async_upload_person_image_source image_data_b64 image_path image_url =
        .proceedsWith (.inlineData (image_data_b64.getD ""))) ∧
    (image_data_b64.getD "" = "" → image_path.getD "" ≠ "" →
      async_upload_person_image_source image_data_b64 image_path image_url =
        .proceedsWith (.filePath (image_path.getD ""))) ∧
    (image_data_b64.getD "" = "" → image_path.getD "" = "" → image_url.getD "" ≠ "" →
      async_upload_person_image_source image_data_b64 image_path image_url =
        .proceedsWith (.urlSource (image_url.getD ""))) ∧
    (image_data_b64.getD "" = "" → image_path.getD "" = "" → image_url.getD "" = "" →
      async_upload_person_image_source image_data_b64 image_path image_url =
        .raisesBeforeClient "Must provide either image_data, image_path, or image_url") := by
  refine ⟨?_, ?_, ?_, ?_⟩
  · intro h
    simp [async_upload_person_image_source, h]
  · intro h1 h2
    simp [async_upload_person_image_source, h1, h2]
  · intro h1 h2 h3
    simp [async_upload_person_image_source, h1, h2, h3]
  · intro h1 h2 h3
    simp [async_upload_person_image_source, h1, h2, h3]

/-- C9 (witness): the precedence at concrete inputs, including an empty
inline string being skipped in favour of the URL, and the no-source
rejection. -/
theorem c9_upload_source_precedence_witness :
    async_upload_person_image_source (some "AAAA") (some "/tmp/a.jpg")
        (some "http://img") = .proceedsWith (.inlineData "AAAA") ∧
    async_upload_person_image_source none (some "/tmp/a.jpg") (some "http://img") =
      .proceedsWith (.filePath "/tmp/a.jpg") ∧
    async_upload_person_image_source (some "") none (some "http://img") =
      .proceedsWith (.urlSource "http://img") ∧
    async_upload_person_image_source none (some "") none =
      .raisesBeforeClient "Must provide either image_data, image_path, or image_url" := by
  refine ⟨?_, ?_, ?_, ?_⟩
  · exact (c9_upload_source_precedence (some "AAAA") (some "/tmp/a.jpg")
      (some "http://img")).1 (by decide)
  · exact (c9_upload_source_precedence none (some "/tmp/a.jpg") (some "http://img")).2.1
      rfl (by decide)
  · exact (c9_upload_source_precedence (some "") none (some "http://img")).2.2.1
      rfl rfl (by decide)
  · exact (c9_upload_source_precedence none (some "") none).2.2.2 rfl rfl rfl

/-- Helper: the recognize handler issues either no identify request or
exactly the one `identify_faces` assembles with the default
`max_candidates`. -/
theorem recognize_calls_shape (gid : String) (θ : ℚ)
    (detect : Except AzureFaceAPIError (List Face))
    (identify : IdentifyRequestBody → Except AzureFaceAPIError (List Identification)) :
    (async_recognize_face gid θ detect identify).1 = [] ∨
    ∃ fids, (async_recognize_face gid θ detect identify).1 =
      [identify_faces_request fids gid IDENTIFY_DEFAULT_MAX_CANDIDATES θ] := by
  rcases detect with e | faces
  · left
    rfl
  · by_cases h0 : faces.isEmpty
    · left
      simp [async_recognize_face, h0]
    · by_cases h1 : 1 < faces.length
      · left
        simp [async_recognize_face, h0, h1]
      · right
        refine ⟨faces.map Face.faceId, ?_⟩
        rcases hid : identify (identify_faces_request (faces.map Face.faceId) gid
            IDENTIFY_DEFAULT_MAX_CANDIDATES θ) with e | idents
        · simp only [identify_faces_request] at hid
          simp [async_recognize_face, identify_faces_request, h0, h1, hid]
        · simp only [identify_faces_request] at hid
          rcases hp : processResults faces idents 0 with _ | results <;>
            simp [async_recognize_face, identify_faces_request, h0, h1, hid, hp]

/-- C10: every identify request the recognize handler issues carries
`maxNumOfCandidatesReturned = 1` — the `identify_faces` default, which the
workflow never overrides — regardless of the service-call arguments. -/
theorem c10_max_candidates_always_one (gid : String) (θ : ℚ)
    (detect : Except AzureFaceAPIError (List Face))
    (identify : IdentifyRequestBody → Except AzureFaceAPIError (List Identification))
    (req : IdentifyRequestBody)
    (h : req ∈ (async_recognize_face gid θ detect identify).1) :
    req.maxNumOfCandidatesReturned = 1 := by
  rcases recognize_calls_shape gid θ detect identify with hc | ⟨fids, hc⟩
  · rw [hc] at h
    simp at h
  · rw [hc] at h
    simp at h
    rw [h]
    rfl

/-- C10 (witness): the one identify request of a concrete single-face run
carries `maxNumOfCandidatesReturned = 1`. -/
theorem c10_max_candidates_always_one_witness :
    (identify_faces_request ["f1"] "family" IDENTIFY_DEFAULT_MAX_CANDIDATES
      (7 / 10)).maxNumOfCandidatesReturned = 1 :=
  c10_max_candidates_always_one "family" (7 / 10) (.ok [⟨"f1", none⟩]) (fun _ => .ok [])
    (identify_faces_request ["f1"] "family" IDENTIFY_DEFAULT_MAX_CANDIDATES (7 / 10))
    (by
      rw [show (async_recognize_face "family" (7 / 10) (.ok [⟨"f1", none⟩])
          (fun _ => .ok [])).1 =
        [identify_faces_request ["f1"] "family" IDENTIFY_DEFAULT_MAX_CANDIDATES (7 / 10)]
        from rfl]
      exact List.mem_singleton.mpr rfl)

end AzureFace
